import Mathlib

/-!
Verification of the HTCondor REST API client (`HTCondorAPI` in
`examples/rest_api_examples.py`).

The Python client is embedded shallowly:

* JSON documents become the inductive type `Json`; Python dicts keep their
  insertion order as association lists.
* An HTTP request is the record `Request` (method, url, headers, query
  parameters, optional JSON body), exactly the data the client hands to
  `requests.Session.post` / `requests.Session.get`.
* The network is an oracle `Server : Request → Outcome`: it either fails at
  the transport level (a `requests` connection exception) or yields a
  response with a status code and a decoded JSON body.
* Each client method becomes a pure function of the client value, its
  arguments and the server oracle, returning an `OpResult`: the client value
  after the call (the Python methods never assign to `self`), the list of
  requests issued during the call, and the outcome
  (`Except ApiException Json`, mirroring return-value vs raised exception).
* Python truthiness of an optional-string argument (`if reason:` and
  friends) is `none ↦ false`, `some s ↦ s ≠ ""`.
* `response.raise_for_status()` raises `requests.HTTPError` exactly when the
  status code lies in 400..599 (client and server errors); this is the
  documented behaviour of the `requests` library.
-/

/-- A JSON value, as decoded from a response body or built for a request
body.  Objects keep key order, matching Python dict insertion order. -/
inductive Json where
  | null : Json
  | bool : Bool → Json
  | num : Int → Json
  | str : String → Json
  | arr : List Json → Json
  | obj : List (String × Json) → Json
deriving Repr

/-- Field lookup in a JSON object (`body["ads"]` in Python). -/
def Json.getField (j : Json) (key : String) : Option Json :=
  match j with
  | .obj kvs => kvs.lookup key
  | _ => none

/-- Length of a JSON array (`len(body["ads"])` in Python). -/
def Json.arrLength : Json → Option Nat
  | .arr xs => some xs.length
  | _ => none

/-- One HTTP request exactly as the client hands it to the `requests`
session: method, url, the session headers attached to every request, query
parameters (the `params=` argument of `session.get`), and the JSON body
(the `json=` argument of `session.post`). -/
structure Request where
  method : String
  url : String
  headers : List (String × String)
  params : List (String × String)
  body : Option Json
deriving Repr

/-- What the network does with one request: either a transport-level
failure (connection refused, timeout, DNS failure — a `requests`
connection exception) or a response carrying an HTTP status code and a
decoded JSON body. -/
inductive Outcome where
  | transportFailure : String → Outcome
  | response : Nat → Json → Outcome

/-- The network, as an oracle mapping each issued request to its outcome. -/
abbrev Server := Request → Outcome

/-- The two kinds of exception a client operation can raise:
`transportError` for a `requests` connection exception propagating through
`session.post` / `session.get`, and `apiError` for the
`requests.HTTPError` raised by `response.raise_for_status()`, which carries
the status code and the response. -/
inductive ApiException where
  | transportError : String → ApiException
  | apiError : Nat → Json → ApiException

/-- Python truthiness of an `Optional[str]` value: `None` and the empty
string are falsy, every other string is truthy. -/
def truthyStr : Option String → Bool
  | none => false
  | some s => !s.isEmpty

/-- The body entries contributed by `if v: data[key] = v` — empty when the
optional argument is absent or falsy. -/
def optField (key : String) (v : Option String) : List (String × Json) :=
  match v with
  | none => []
  | some s => if s.isEmpty then [] else [(key, Json.str s)]

/-- The query-parameter entries contributed by
`if v: params[key] = v`. -/
def optQuery (key : String) (v : Option String) : List (String × String) :=
  match v with
  | none => []
  | some s => if s.isEmpty then [] else [(key, s)]

/-- Python `s.rstrip('/')`: remove every trailing slash character. -/
def rstripSlash (s : String) : String :=
  String.mk ((s.data.reverse.dropWhile (fun c => c = '/')).reverse)

/-- The state of an `HTCondorAPI` instance: `self.base_url`, `self.token`,
and the headers the constructor installed on `self.session`. -/
structure HTCondorAPI where
  base_url : String
  token : Option String
  sessionHeaders : List (String × String)
deriving Repr

/-- `HTCondorAPI.__init__`: strip trailing slashes from the base url, store
the token, create a fresh session, and — when the token is truthy —
install the bearer header on the session so that it is attached to every
subsequent request. -/
def HTCondorAPI.init (base_url : String) (token : Option String) : HTCondorAPI :=
  { base_url := rstripSlash base_url
    token := token
    sessionHeaders :=
      match token with
      | none => []
      | some t => if t.isEmpty then [] else [("Authorization", "Bearer " ++ t)] }

/-- The requests issued while `HTCondorAPI.__init__` runs: the constructor
only assigns fields and creates a `requests.Session`; it calls no request
method, so the list is empty. -/
def initRequests (_ : String) (_ : Option String) : List Request :=
  []

/-- What one client method call produces: the client value after the call
(the methods never assign to `self`), the requests issued during the call,
and the returned JSON (or the raised exception). -/
structure OpResult where
  self : HTCondorAPI
  trace : List Request
  result : Except ApiException Json

/-- Issue one request and handle the response as every method does:
call the session, `raise_for_status` (which raises `HTTPError` exactly for
status codes 400..599), and return the decoded body verbatim on success. -/
def sendRequest (c : HTCondorAPI) (server : Server) (req : Request) : OpResult :=
  match server req with
  | .transportFailure m => ⟨c, [req], .error (.transportError m)⟩
  | .response status b =>
      if 400 ≤ status ∧ status ≤ 599 then ⟨c, [req], .error (.apiError status b)⟩
      else ⟨c, [req], .ok b⟩

/-- The common tail of every POST method:
`response = self.session.post(url, json=data)` followed by
`response.raise_for_status()` and `return response.json()`.  The session
attaches its headers; the `params=` argument is not passed, and the JSON
body is the `json=` argument. -/
def HTCondorAPI.post (c : HTCondorAPI) (server : Server) (url : String)
    (data : Json) : OpResult :=
  sendRequest c server
    { method := "POST", url := url, headers := c.sessionHeaders,
      params := [], body := some data }

/-- The common tail of every GET method:
`response = self.session.get(url, params=params)` followed by
`response.raise_for_status()` and `return response.json()`. -/
def HTCondorAPI.get (c : HTCondorAPI) (server : Server) (url : String)
    (params : List (String × String)) : OpResult :=
  sendRequest c server
    { method := "GET", url := url, headers := c.sessionHeaders,
      params := params, body := none }

/-- `hold_job`: POST to `base_url ++ "/api/v1/jobs/" ++ job_id ++ "/hold"`
with body `data = {}` extended with the reason when it is truthy. -/
def HTCondorAPI.hold_job (c : HTCondorAPI) (job_id : String)
    (reason : Option String) (server : Server) : OpResult :=
  c.post server (c.base_url ++ "/api/v1/jobs/" ++ job_id ++ "/hold")
    (Json.obj (optField "reason" reason))

/-- `release_job`: POST to
`base_url ++ "/api/v1/jobs/" ++ job_id ++ "/release"` with body `data = {}`
extended with the reason when it is truthy. -/
def HTCondorAPI.release_job (c : HTCondorAPI) (job_id : String)
    (reason : Option String) (server : Server) : OpResult :=
  c.post server (c.base_url ++ "/api/v1/jobs/" ++ job_id ++ "/release")
    (Json.obj (optField "reason" reason))

/-- `bulk_hold_jobs`: POST to `base_url ++ "/api/v1/jobs/hold"` with body
`data = {'constraint': constraint}` extended with the reason when it is
truthy. -/
def HTCondorAPI.bulk_hold_jobs (c : HTCondorAPI) (constraint : String)
    (reason : Option String) (server : Server) : OpResult :=
  c.post server (c.base_url ++ "/api/v1/jobs/hold")
    (Json.obj ([("constraint", Json.str constraint)] ++ optField "reason" reason))

/-- `bulk_release_jobs`: POST to `base_url ++ "/api/v1/jobs/release"` with
body `data = {'constraint': constraint}` extended with the reason when it
is truthy. -/
def HTCondorAPI.bulk_release_jobs (c : HTCondorAPI) (constraint : String)
    (reason : Option String) (server : Server) : OpResult :=
  c.post server (c.base_url ++ "/api/v1/jobs/release")
    (Json.obj ([("constraint", Json.str constraint)] ++ optField "reason" reason))

/-- `query_collector_ads` (the spec calls it `query_ads`): GET
`base_url ++ "/api/v1/collector/ads"` with `params = {}` extended with the
constraint when it is truthy. -/
def HTCondorAPI.query_collector_ads (c : HTCondorAPI)
    (constraint : Option String) (server : Server) : OpResult :=
  c.get server (c.base_url ++ "/api/v1/collector/ads")
    (optQuery "constraint" constraint)

/-- `query_collector_ads_by_type` (the spec calls it `query_ads_by_type`):
GET `base_url ++ "/api/v1/collector/ads/" ++ ad_type` with `params = {}`
extended with the constraint when it is truthy. -/
def HTCondorAPI.query_collector_ads_by_type (c : HTCondorAPI)
    (ad_type : String) (constraint : Option String) (server : Server) :
    OpResult :=
  c.get server (c.base_url ++ "/api/v1/collector/ads/" ++ ad_type)
    (optQuery "constraint" constraint)

/-- `get_collector_ad` (the spec calls it `get_ad`): GET
`base_url ++ "/api/v1/collector/ads/" ++ ad_type ++ "/" ++ name` with no
query parameters and no body. -/
def HTCondorAPI.get_collector_ad (c : HTCondorAPI) (ad_type name : String)
    (server : Server) : OpResult :=
  c.get server (c.base_url ++ "/api/v1/collector/ads/" ++ ad_type ++ "/" ++ name)
    []

/-- Every request issued by one call to each of the seven operations, in
order: the combined request trace used to state properties quantified over
all operations of the client. -/
def allTraces (c : HTCondorAPI) (server : Server)
    (id ty nm cons : String) (r co : Option String) : List Request :=
  (c.hold_job id r server).trace ++ (c.release_job id r server).trace ++
  (c.bulk_hold_jobs cons r server).trace ++
  (c.bulk_release_jobs cons r server).trace ++
  (c.query_collector_ads co server).trace ++
  (c.query_collector_ads_by_type ty co server).trace ++
  (c.get_collector_ad ty nm server).trace

/-- The mock response body of the C8 scenario. -/
def adsBody : Json :=
  Json.obj [("ads", Json.arr [Json.obj [("Name", Json.str "a")],
                              Json.obj [("Name", Json.str "b")]])]

/-- A mock server answering every request with status 200 and `adsBody`. -/
def mockAdsServer : Server := fun _ => Outcome.response 200 adsBody

-- ### Helper lemmas about the request helpers

theorem sendRequest_trace (c : HTCondorAPI) (server : Server)
    (req : Request) : (sendRequest c server req).trace = [req] := by
  unfold sendRequest
  rcases server req with m | ⟨s, b⟩
  · rfl
  · dsimp only
    split <;> rfl

theorem sendRequest_self (c : HTCondorAPI) (server : Server)
    (req : Request) : (sendRequest c server req).self = c := by
  unfold sendRequest
  rcases server req with m | ⟨s, b⟩
  · rfl
  · dsimp only
    split <;> rfl

theorem sendRequest_apiError (c : HTCondorAPI) (server : Server)
    (req : Request) (status : Nat) (b : Json)
    (hs : server req = .response status b) (h4 : 400 ≤ status)
    (h5 : status ≤ 599) :
    (sendRequest c server req).result = .error (.apiError status b) := by
  unfold sendRequest
  rw [hs]
  simp [h4, h5]

theorem sendRequest_transport (c : HTCondorAPI) (server : Server)
    (req : Request) (m : String) (hs : server req = .transportFailure m) :
    (sendRequest c server req).result = .error (.transportError m) := by
  unfold sendRequest
  rw [hs]

theorem sendRequest_ok (c : HTCondorAPI) (server : Server)
    (req : Request) (status : Nat) (b : Json)
    (hs : server req = .response status b) (h4 : status < 400) :
    (sendRequest c server req).result = .ok b := by
  unfold sendRequest
  rw [hs]
  have hn : ¬ (400 ≤ status ∧ status ≤ 599) := by omega
  simp [hn]

theorem post_trace (c : HTCondorAPI) (server : Server) (url : String)
    (d : Json) :
    (c.post server url d).trace =
      [⟨"POST", url, c.sessionHeaders, [], some d⟩] :=
  sendRequest_trace ..

theorem get_trace (c : HTCondorAPI) (server : Server) (url : String)
    (ps : List (String × String)) :
    (c.get server url ps).trace =
      [⟨"GET", url, c.sessionHeaders, ps, none⟩] :=
  sendRequest_trace ..

theorem post_self (c : HTCondorAPI) (server : Server) (url : String)
    (d : Json) : (c.post server url d).self = c :=
  sendRequest_self ..

theorem get_self (c : HTCondorAPI) (server : Server) (url : String)
    (ps : List (String × String)) : (c.get server url ps).self = c :=
  sendRequest_self ..

-- ### The request each operation issues

theorem hold_job_trace (c : HTCondorAPI) (server : Server) (id : String)
    (r : Option String) :
    (c.hold_job id r server).trace =
      [⟨"POST", c.base_url ++ "/api/v1/jobs/" ++ id ++ "/hold",
        c.sessionHeaders, [], some (Json.obj (optField "reason" r))⟩] :=
  post_trace ..

theorem release_job_trace (c : HTCondorAPI) (server : Server) (id : String)
    (r : Option String) :
    (c.release_job id r server).trace =
      [⟨"POST", c.base_url ++ "/api/v1/jobs/" ++ id ++ "/release",
        c.sessionHeaders, [], some (Json.obj (optField "reason" r))⟩] :=
  post_trace ..

theorem bulk_hold_jobs_trace (c : HTCondorAPI) (server : Server)
    (cons : String) (r : Option String) :
    (c.bulk_hold_jobs cons r server).trace =
      [⟨"POST", c.base_url ++ "/api/v1/jobs/hold", c.sessionHeaders, [],
        some (Json.obj ([("constraint", Json.str cons)] ++ optField "reason" r))⟩] :=
  post_trace ..

theorem bulk_release_jobs_trace (c : HTCondorAPI) (server : Server)
    (cons : String) (r : Option String) :
    (c.bulk_release_jobs cons r server).trace =
      [⟨"POST", c.base_url ++ "/api/v1/jobs/release", c.sessionHeaders, [],
        some (Json.obj ([("constraint", Json.str cons)] ++ optField "reason" r))⟩] :=
  post_trace ..

theorem query_collector_ads_trace (c : HTCondorAPI) (server : Server)
    (co : Option String) :
    (c.query_collector_ads co server).trace =
      [⟨"GET", c.base_url ++ "/api/v1/collector/ads", c.sessionHeaders,
        optQuery "constraint" co, none⟩] :=
  get_trace ..

theorem query_collector_ads_by_type_trace (c : HTCondorAPI)
    (server : Server) (ty : String) (co : Option String) :
    (c.query_collector_ads_by_type ty co server).trace =
      [⟨"GET", c.base_url ++ "/api/v1/collector/ads/" ++ ty,
        c.sessionHeaders, optQuery "constraint" co, none⟩] :=
  get_trace ..

theorem get_collector_ad_trace (c : HTCondorAPI) (server : Server)
    (ty nm : String) :
    (c.get_collector_ad ty nm server).trace =
      [⟨"GET", c.base_url ++ "/api/v1/collector/ads/" ++ ty ++ "/" ++ nm,
        c.sessionHeaders, [], none⟩] :=
  get_trace ..

-- ### Facts about trailing-slash stripping

theorem head_dropWhile_slash (l : List Char) :
    ∀ c : Char, (l.dropWhile (fun x => x = '/')).head? = some c → c ≠ '/' := by
  induction l with
  | nil => intro c h; simp [List.dropWhile] at h
  | cons a t ih =>
    intro c h
    rw [List.dropWhile_cons] at h
    by_cases ha : a = '/'
    · simp [ha] at h
      exact ih c h
    · simp [ha] at h
      rw [← h]
      exact ha

theorem rstripSlash_no_trailing (s : String) (c : Char)
    (h : (rstripSlash s).data.getLast? = some c) : c ≠ '/' := by
  have h' : (s.data.reverse.dropWhile (fun x => x = '/')).head? = some c := by
    rw [← List.getLast?_reverse]
    exact h
  exact head_dropWhile_slash _ c h'

theorem rstripSlash_append (s : String) :
    ∃ n : Nat, rstripSlash s ++ String.mk (List.replicate n '/') = s := by
  obtain ⟨n, htake⟩ :
      ∃ n, s.data.reverse.takeWhile (fun x => decide (x = '/')) =
        List.replicate n '/' := by
    refine ⟨_, List.eq_replicate_iff.mpr ⟨rfl, fun x hx => ?_⟩⟩
    simpa using List.mem_takeWhile_imp hx
  refine ⟨n, String.ext ?_⟩
  show (s.data.reverse.dropWhile (fun x => decide (x = '/'))).reverse ++
      List.replicate n '/' = s.data
  have hsplit :
      (s.data.reverse.takeWhile (fun x => decide (x = '/')) ++
        s.data.reverse.dropWhile (fun x => decide (x = '/'))).reverse =
      s.data := by
    rw [List.takeWhile_append_dropWhile, List.reverse_reverse]
  rw [List.reverse_append, htake, List.reverse_replicate] at hsplit
  exact hsplit

-- ### Reassociating url concatenation

theorem url_collector_ad_literal (b : String) :
    b ++ "/api/v1/collector/ads/" ++ "schedd" ++ "/" ++ "schedd@host.example.com"
      = b ++ "/api/v1/collector/ads/schedd/schedd@host.example.com" := by
  simp only [String.append_assoc]
  rfl

theorem isEmpty_false_of_ne (r : String) (hr : r ≠ "") : r.isEmpty = false := by
  rw [Bool.eq_false_iff]
  intro hb
  exact hr ((String.isEmpty_iff _).mp hb)

-- ### The claims

/-- C1, counterexample: the claim says that for every supplied reason value
`hold_job` sends the body with a reason key; but with the supplied reason
value `""` the code's truthiness test skips the key and the body is the
empty object, not the object with an empty reason. -/
theorem C1_counterexample :
    ((HTCondorAPI.init "http://h" none).hold_job "123.0" (some "")
        (fun _ => Outcome.response 200 (Json.obj []))).trace.map Request.body
      = [some (Json.obj [])] ∧
    some (Json.obj []) ≠ some (Json.obj [("reason", Json.str "")]) :=
  ⟨rfl, by simp⟩

/-- C1 (amended): for every job identifier, `hold_job` issues exactly one
POST to `base_url ++ "/api/v1/jobs/" ++ id ++ "/hold"`; the JSON body is the
empty object when no reason is given, the object with the reason key when a
non-empty reason is given, and — the amendment — again the empty object
when the supplied reason is the empty string. -/
theorem C1_hold_job_requests (c : HTCondorAPI) (server : Server)
    (id : String) :
    ((c.hold_job id none server).trace =
      [⟨"POST", c.base_url ++ "/api/v1/jobs/" ++ id ++ "/hold",
        c.sessionHeaders, [], some (Json.obj [])⟩]) ∧
    (∀ r : String, r ≠ "" → (c.hold_job id (some r) server).trace =
      [⟨"POST", c.base_url ++ "/api/v1/jobs/" ++ id ++ "/hold",
        c.sessionHeaders, [], some (Json.obj [("reason", Json.str r)])⟩]) ∧
    ((c.hold_job id (some "") server).trace =
      [⟨"POST", c.base_url ++ "/api/v1/jobs/" ++ id ++ "/hold",
        c.sessionHeaders, [], some (Json.obj [])⟩]) := by
  refine ⟨by rw [hold_job_trace]; rfl, fun r hr => ?_,
    by rw [hold_job_trace]; rfl⟩
  rw [hold_job_trace]
  simp [optField, isEmpty_false_of_ne r hr]

/-- Witness for C1: the amended theorem applied to a concrete client, job
identifier and non-empty reason. -/
theorem C1_hold_job_requests_witness :
    ("maintenance" : String) ≠ "" ∧
    ((HTCondorAPI.init "http://h" none).hold_job "123.0" (some "maintenance")
        (fun _ => Outcome.response 200 (Json.obj []))).trace =
      [⟨"POST", "http://h" ++ "/api/v1/jobs/" ++ "123.0" ++ "/hold", [], [],
        some (Json.obj [("reason", Json.str "maintenance")])⟩] :=
  ⟨by decide,
   (C1_hold_job_requests (HTCondorAPI.init "http://h" none)
      (fun _ => Outcome.response 200 (Json.obj [])) "123.0").2.1
     "maintenance" (by decide)⟩

/-- C3: for every constraint string, `bulk_hold_jobs` with the reason
omitted issues exactly one POST to `base_url ++ "/api/v1/jobs/hold"` whose
JSON body is exactly the one-key object with the constraint — the
constraint key present, the reason key absent. -/
theorem C3_bulk_hold_request (c : HTCondorAPI) (server : Server)
    (constraint : String) :
    (c.bulk_hold_jobs constraint none server).trace =
      [⟨"POST", c.base_url ++ "/api/v1/jobs/hold", c.sessionHeaders, [],
        some (Json.obj [("constraint", Json.str constraint)])⟩] := by
  rw [bulk_hold_jobs_trace]
  rfl

/-- C4: `query_collector_ads` with no constraint sends one GET to
`base_url ++ "/api/v1/collector/ads"` with an empty query-parameter map,
and with the constraint string `"Cpus > 8"` it sends the same GET with the
constraint parameter carried verbatim. -/
theorem C4_query_ads_constraint (c : HTCondorAPI) (server : Server) :
    ((c.query_collector_ads none server).trace =
      [⟨"GET", c.base_url ++ "/api/v1/collector/ads", c.sessionHeaders,
        [], none⟩]) ∧
    ((c.query_collector_ads (some "Cpus > 8") server).trace =
      [⟨"GET", c.base_url ++ "/api/v1/collector/ads", c.sessionHeaders,
        [("constraint", "Cpus > 8")], none⟩]) :=
  ⟨by rw [query_collector_ads_trace]; rfl,
   by rw [query_collector_ads_trace]; rfl⟩

/-- C5: `get_collector_ad "schedd" "schedd@host.example.com"` issues
exactly one GET to
`base_url ++ "/api/v1/collector/ads/schedd/schedd@host.example.com"` with
no body and no query parameters; and in general the type and name are
inserted into the path verbatim, without escaping or validation. -/
theorem C5_get_ad (c : HTCondorAPI) (server : Server) :
    ((c.get_collector_ad "schedd" "schedd@host.example.com" server).trace =
      [⟨"GET",
        c.base_url ++ "/api/v1/collector/ads/schedd/schedd@host.example.com",
        c.sessionHeaders, [], none⟩]) ∧
    (∀ ty nm : String, (c.get_collector_ad ty nm server).trace =
      [⟨"GET", c.base_url ++ "/api/v1/collector/ads/" ++ ty ++ "/" ++ nm,
        c.sessionHeaders, [], none⟩]) := by
  constructor
  · rw [get_collector_ad_trace, url_collector_ad_literal]
  · intro ty nm
    rw [get_collector_ad_trace]

/-- C2: for every operation, a response with a failure status code (the
HTTP client-error and server-error range 400..599, exactly the codes for
which `raise_for_status` raises) fails the call with an `apiError` carrying
the original status code; a transport failure fails it with a
`transportError`; and in both cases the failure reaches the caller while
the operation still issues exactly one request — no retry, nothing
swallowed. -/
theorem C2_error_propagation (c : HTCondorAPI) (server : Server)
    (id ty nm cons : String) (r co : Option String) :
    (∀ (status : Nat) (b : Json), 400 ≤ status → status ≤ 599 →
      (∀ req, server req = Outcome.response status b) →
        (c.hold_job id r server).result = .error (.apiError status b) ∧
        (c.release_job id r server).result = .error (.apiError status b) ∧
        (c.bulk_hold_jobs cons r server).result = .error (.apiError status b) ∧
        (c.bulk_release_jobs cons r server).result = .error (.apiError status b) ∧
        (c.query_collector_ads co server).result = .error (.apiError status b) ∧
        (c.query_collector_ads_by_type ty co server).result =
          .error (.apiError status b) ∧
        (c.get_collector_ad ty nm server).result = .error (.apiError status b)) ∧
    (∀ m : String, (∀ req, server req = Outcome.transportFailure m) →
        (c.hold_job id r server).result = .error (.transportError m) ∧
        (c.release_job id r server).result = .error (.transportError m) ∧
        (c.bulk_hold_jobs cons r server).result = .error (.transportError m) ∧
        (c.bulk_release_jobs cons r server).result = .error (.transportError m) ∧
        (c.query_collector_ads co server).result = .error (.transportError m) ∧
        (c.query_collector_ads_by_type ty co server).result =
          .error (.transportError m) ∧
        (c.get_collector_ad ty nm server).result = .error (.transportError m)) ∧
    ((c.hold_job id r server).trace.length = 1 ∧
     (c.release_job id r server).trace.length = 1 ∧
     (c.bulk_hold_jobs cons r server).trace.length = 1 ∧
     (c.bulk_release_jobs cons r server).trace.length = 1 ∧
     (c.query_collector_ads co server).trace.length = 1 ∧
     (c.query_collector_ads_by_type ty co server).trace.length = 1 ∧
     (c.get_collector_ad ty nm server).trace.length = 1) := by
  refine ⟨fun status b h4 h5 hs => ?_, fun m hs => ?_, ?_⟩
  · exact ⟨sendRequest_apiError c server _ status b (hs _) h4 h5,
      sendRequest_apiError c server _ status b (hs _) h4 h5,
      sendRequest_apiError c server _ status b (hs _) h4 h5,
      sendRequest_apiError c server _ status b (hs _) h4 h5,
      sendRequest_apiError c server _ status b (hs _) h4 h5,
      sendRequest_apiError c server _ status b (hs _) h4 h5,
      sendRequest_apiError c server _ status b (hs _) h4 h5⟩
  · exact ⟨sendRequest_transport c server _ m (hs _),
      sendRequest_transport c server _ m (hs _),
      sendRequest_transport c server _ m (hs _),
      sendRequest_transport c server _ m (hs _),
      sendRequest_transport c server _ m (hs _),
      sendRequest_transport c server _ m (hs _),
      sendRequest_transport c server _ m (hs _)⟩
  · exact ⟨by rw [hold_job_trace]; rfl, by rw [release_job_trace]; rfl,
      by rw [bulk_hold_jobs_trace]; rfl, by rw [bulk_release_jobs_trace]; rfl,
      by rw [query_collector_ads_trace]; rfl,
      by rw [query_collector_ads_by_type_trace]; rfl,
      by rw [get_collector_ad_trace]; rfl⟩

/-- Witness for C2: a client whose server answers 404 fails `hold_job`
with an `apiError` preserving 404, and a client whose connection is refused
fails it with a `transportError`. -/
theorem C2_error_propagation_witness :
    (((HTCondorAPI.init "http://h" none).hold_job "1.0" none
        (fun _ => Outcome.response 404 (Json.obj []))).result =
      Except.error (ApiException.apiError 404 (Json.obj []))) ∧
    (((HTCondorAPI.init "http://h" none).hold_job "1.0" none
        (fun _ => Outcome.transportFailure "connection refused")).result =
      Except.error (ApiException.transportError "connection refused")) :=
  ⟨((C2_error_propagation (HTCondorAPI.init "http://h" none)
      (fun _ => Outcome.response 404 (Json.obj [])) "1.0" "schedd" "n" "c"
      none none).1 404 (Json.obj []) (by norm_num) (by norm_num)
      (fun _ => rfl)).1,
   ((C2_error_propagation (HTCondorAPI.init "http://h" none)
      (fun _ => Outcome.transportFailure "connection refused") "1.0" "schedd"
      "n" "c" none none).2.1 "connection refused" (fun _ => rfl)).1⟩

/-- C6, counterexample: with the credential configured as the empty string,
the constructor's truthiness test installs no session header, so the
request issued by `hold_job` carries no Authorization header at all —
against the claim that every request of a client with a configured
credential carries the bearer header. -/
theorem C6_counterexample :
    ((HTCondorAPI.init "http://h" (some "")).hold_job "1.0" none
        (fun _ => Outcome.response 200 (Json.obj []))).trace.map
      Request.headers = [[]] ∧
    ([] : List (String × String)) ≠ [("Authorization", "Bearer " ++ "")] :=
  ⟨rfl, by simp⟩

/-- C6 (amended): with a non-empty credential configured, every request
issued by every operation carries the header `Authorization: Bearer`
followed by the credential; with no credential — and likewise with the
empty-string credential, the amendment — no request carries any header. -/
theorem C6_auth_header (base t : String) (ht : t ≠ "") (server : Server)
    (id ty nm cons : String) (r co : Option String) :
    ((allTraces (HTCondorAPI.init base (some t)) server id ty nm cons r co).map
        Request.headers =
      [[("Authorization", "Bearer " ++ t)], [("Authorization", "Bearer " ++ t)],
       [("Authorization", "Bearer " ++ t)], [("Authorization", "Bearer " ++ t)],
       [("Authorization", "Bearer " ++ t)], [("Authorization", "Bearer " ++ t)],
       [("Authorization", "Bearer " ++ t)]]) ∧
    ((allTraces (HTCondorAPI.init base none) server id ty nm cons r co).map
        Request.headers = [[], [], [], [], [], [], []]) ∧
    ((allTraces (HTCondorAPI.init base (some "")) server id ty nm cons r co).map
        Request.headers = [[], [], [], [], [], [], []]) := by
  refine ⟨?_, ?_, ?_⟩
  · simp [allTraces, hold_job_trace, release_job_trace, bulk_hold_jobs_trace,
      bulk_release_jobs_trace, query_collector_ads_trace,
      query_collector_ads_by_type_trace, get_collector_ad_trace,
      HTCondorAPI.init, isEmpty_false_of_ne t ht]
  · simp [allTraces, hold_job_trace, release_job_trace, bulk_hold_jobs_trace,
      bulk_release_jobs_trace, query_collector_ads_trace,
      query_collector_ads_by_type_trace, get_collector_ad_trace,
      HTCondorAPI.init]
  · simp [allTraces, hold_job_trace, release_job_trace, bulk_hold_jobs_trace,
      bulk_release_jobs_trace, query_collector_ads_trace,
      query_collector_ads_by_type_trace, get_collector_ad_trace,
      HTCondorAPI.init]
    rfl

/-- Witness for C6: the amended theorem applied to a concrete base url,
credential and server. -/
theorem C6_auth_header_witness :
    ("secret" : String) ≠ "" ∧
    (allTraces (HTCondorAPI.init "http://h" (some "secret"))
        (fun _ => Outcome.response 200 (Json.obj [])) "1.0" "schedd" "n" "c"
        none none).map Request.headers =
      [[("Authorization", "Bearer " ++ "secret")],
       [("Authorization", "Bearer " ++ "secret")],
       [("Authorization", "Bearer " ++ "secret")],
       [("Authorization", "Bearer " ++ "secret")],
       [("Authorization", "Bearer " ++ "secret")],
       [("Authorization", "Bearer " ++ "secret")],
       [("Authorization", "Bearer " ++ "secret")]] :=
  ⟨by decide,
   (C6_auth_header "http://h" "secret" (by decide)
      (fun _ => Outcome.response 200 (Json.obj [])) "1.0" "schedd" "n" "c"
      none none).1⟩

/-- C7: constructing the client from a non-empty base url strips all
trailing slash characters (the stored base url never ends in a slash, and
putting some number of slashes back recovers the input), stores the
credential unchanged, and issues no request at construction time. -/
theorem C7_init (b : String) (_hb : b ≠ "") (t : Option String) :
    (∀ ch : Char, (HTCondorAPI.init b t).base_url.data.getLast? = some ch →
      ch ≠ '/') ∧
    (∃ n : Nat, (HTCondorAPI.init b t).base_url ++
      String.mk (List.replicate n '/') = b) ∧
    (HTCondorAPI.init b t).token = t ∧
    initRequests b t = [] :=
  ⟨fun ch h => rstripSlash_no_trailing b ch h, rstripSlash_append b, rfl, rfl⟩

/-- Witness for C7: a base url with three trailing slashes. -/
theorem C7_init_witness :
    ("http://host:8080///" : String) ≠ "" ∧
    (∀ ch : Char,
      (HTCondorAPI.init "http://host:8080///" (some "tok")).base_url.data.getLast?
        = some ch → ch ≠ '/') ∧
    (HTCondorAPI.init "http://host:8080///" (some "tok")).token = some "tok" :=
  ⟨by decide,
   (C7_init "http://host:8080///" (by decide) (some "tok")).1,
   (C7_init "http://host:8080///" (by decide) (some "tok")).2.2.1⟩

/-- C8: when the server answers with a success status, every operation
returns the decoded response body verbatim; in particular, against a mock
server answering the collector-ads route with the two-element ads object,
`query_collector_ads` returns exactly that object, whose ads field is the
two ads in the server's order. -/
theorem C8_verbatim (c : HTCondorAPI) (server : Server)
    (id ty nm cons : String) (r co : Option String)
    (status : Nat) (b : Json) (h4 : status < 400)
    (hs : ∀ req, server req = Outcome.response status b) :
    ((c.hold_job id r server).result = .ok b ∧
     (c.release_job id r server).result = .ok b ∧
     (c.bulk_hold_jobs cons r server).result = .ok b ∧
     (c.bulk_release_jobs cons r server).result = .ok b ∧
     (c.query_collector_ads co server).result = .ok b ∧
     (c.query_collector_ads_by_type ty co server).result = .ok b ∧
     (c.get_collector_ad ty nm server).result = .ok b) ∧
    ((c.query_collector_ads none mockAdsServer).result = Except.ok adsBody ∧
     Json.getField adsBody "ads" =
       some (Json.arr [Json.obj [("Name", Json.str "a")],
                       Json.obj [("Name", Json.str "b")]]) ∧
     (Json.getField adsBody "ads").bind Json.arrLength = some 2) := by
  refine ⟨⟨sendRequest_ok c server _ status b (hs _) h4,
    sendRequest_ok c server _ status b (hs _) h4,
    sendRequest_ok c server _ status b (hs _) h4,
    sendRequest_ok c server _ status b (hs _) h4,
    sendRequest_ok c server _ status b (hs _) h4,
    sendRequest_ok c server _ status b (hs _) h4,
    sendRequest_ok c server _ status b (hs _) h4⟩, rfl, rfl, rfl⟩

/-- Witness for C8: the theorem applied to a concrete client and the
all-200 mock server. -/
theorem C8_verbatim_witness :
    (200 : Nat) < 400 ∧
    ((HTCondorAPI.init "http://h" none).query_collector_ads none
        mockAdsServer).result = Except.ok adsBody :=
  ⟨by norm_num,
   ((C8_verbatim (HTCondorAPI.init "http://h" none) mockAdsServer "1.0"
      "schedd" "n" "c" none none 200 adsBody (by norm_num)
      (fun _ => rfl)).1).2.2.2.2.1⟩

/-- C9: every operation leaves the client value — base url, credential and
session headers — exactly as it was, and issues exactly one request,
whatever the server does. -/
theorem C9_frame (c : HTCondorAPI) (server : Server)
    (id ty nm cons : String) (r co : Option String) :
    ((c.hold_job id r server).self = c ∧
     (c.release_job id r server).self = c ∧
     (c.bulk_hold_jobs cons r server).self = c ∧
     (c.bulk_release_jobs cons r server).self = c ∧
     (c.query_collector_ads co server).self = c ∧
     (c.query_collector_ads_by_type ty co server).self = c ∧
     (c.get_collector_ad ty nm server).self = c) ∧
    ((c.hold_job id r server).trace.length = 1 ∧
     (c.release_job id r server).trace.length = 1 ∧
     (c.bulk_hold_jobs cons r server).trace.length = 1 ∧
     (c.bulk_release_jobs cons r server).trace.length = 1 ∧
     (c.query_collector_ads co server).trace.length = 1 ∧
     (c.query_collector_ads_by_type ty co server).trace.length = 1 ∧
     (c.get_collector_ad ty nm server).trace.length = 1) := by
  refine ⟨⟨sendRequest_self .., sendRequest_self .., sendRequest_self ..,
    sendRequest_self .., sendRequest_self .., sendRequest_self ..,
    sendRequest_self ..⟩, ?_⟩
  exact ⟨by rw [hold_job_trace]; rfl, by rw [release_job_trace]; rfl,
    by rw [bulk_hold_jobs_trace]; rfl, by rw [bulk_release_jobs_trace]; rfl,
    by rw [query_collector_ads_trace]; rfl,
    by rw [query_collector_ads_by_type_trace]; rfl,
    by rw [get_collector_ad_trace]; rfl⟩

/-- C10: the empty string for an optional parameter behaves exactly like
omitting it: `hold_job` and `release_job` with the empty-string reason are
the very same call as with no reason (so the body is the empty object with
no reason key), the two query operations with the empty-string constraint
are the same calls as with no constraint (no constraint parameter), and a
client constructed with the empty-string credential installs no session
header, so none of its requests carries an Authorization header. -/
theorem C10_empty_string (c : HTCondorAPI) (server : Server)
    (id ty nm cons base : String) (r co : Option String) :
    (c.hold_job id (some "") server = c.hold_job id none server) ∧
    (c.release_job id (some "") server = c.release_job id none server) ∧
    (c.query_collector_ads (some "") server =
      c.query_collector_ads none server) ∧
    (c.query_collector_ads_by_type ty (some "") server =
      c.query_collector_ads_by_type ty none server) ∧
    ((c.hold_job id (some "") server).trace.map Request.body =
      [some (Json.obj [])]) ∧
    ((c.query_collector_ads (some "") server).trace.map Request.params =
      [[]]) ∧
    ((HTCondorAPI.init base (some "")).sessionHeaders = []) ∧
    ((allTraces (HTCondorAPI.init base (some "")) server id ty nm cons r co).map
        Request.headers = [[], [], [], [], [], [], []]) := by
  refine ⟨rfl, rfl, rfl, rfl, ?_, ?_, rfl, ?_⟩
  · rw [hold_job_trace]; rfl
  · rw [query_collector_ads_trace]; rfl
  · simp [allTraces, hold_job_trace, release_job_trace, bulk_hold_jobs_trace,
      bulk_release_jobs_trace, query_collector_ads_trace,
      query_collector_ads_by_type_trace, get_collector_ad_trace,
      HTCondorAPI.init]
    rfl
